import Mathlib

/-!
Shallow embedding of the smartie NVMe/SCSI protocol layer.

Each definition below is translated from the repository sources:
  src/smartie/nvme/structures.py
  src/smartie/nvme/__init__.py
  src/smartie/scsi/windows.py
Bytes are modelled as natural numbers below 256, byte buffers as lists of
naturals, and Python exceptions as Except values.  ctypes integer fields
wrap modulo 2 to the field width, which the embedding makes explicit.
-/

namespace Smartie

/-- NVMeCQEStatusField from src/smartie/nvme/structures.py: the 2-byte NVMe
completion-queue-entry status field.  The first byte is status_code; the
second byte packs status_code_type (3 bits), cmd_retry_delay (2 bits),
more (1 bit) and do_not_retry (1 bit), least-significant bit first, which
is the ctypes bit-field allocation order on a little-endian host. -/
structure NVMeCQEStatusField where
  status_code : Nat
  status_code_type : Nat
  cmd_retry_delay : Nat
  more : Nat
  do_not_retry : Nat
  deriving DecidableEq, Repr

/-- Decoding of the two status bytes into the bit fields of
NVMeCQEStatusField, following the ctypes layout described above. -/
def NVMeCQEStatusField.fromBytes (b0 b1 : Nat) : NVMeCQEStatusField :=
  { status_code := b0 % 256
    status_code_type := b1 % 8
    cmd_retry_delay := b1 / 8 % 4
    more := b1 / 32 % 2
    do_not_retry := b1 / 64 % 2 }

/-- Errors raised by the NVMe layer.  malformedStructure models the ctypes
ValueError raised by from_buffer_copy when the source buffer is shorter
than the structure (the MalformedStructure condition of the spec);
statusFieldError models smartie.errors.NVMeStatusFieldError, which carries
the status code, the status code type and the full parsed field. -/
inductive NVMeError where
  | malformedStructure
  | statusFieldError (status_code : Nat) (status_code_type : Nat)
      (field : NVMeCQEStatusField)
  deriving DecidableEq, Repr

/-- NVMeCQEStatusField.from_buffer_copy: ctypes copies the first 2 bytes of
the source buffer into the structure and raises ValueError when the buffer
holds fewer than 2 bytes. -/
def NVMeCQEStatusField.from_buffer_copy :
    List Nat → Except NVMeError NVMeCQEStatusField
  | b0 :: b1 :: _ => .ok (NVMeCQEStatusField.fromBytes b0 b1)
  | _ => .error .malformedStructure

/-- NVMEDevice.parse_status_filed from src/smartie/nvme/__init__.py: decode
the status blob as an NVMeCQEStatusField and raise NVMeStatusFieldError
when status_code or status_code_type is nonzero. -/
def parse_status_filed (status_blob : List Nat) :
    Except NVMeError NVMeCQEStatusField :=
  match NVMeCQEStatusField.from_buffer_copy status_blob with
  | .error e => .error e
  | .ok status_filed =>
    if status_filed.status_code ≠ 0 ∨ status_filed.status_code_type ≠ 0 then
      .error (.statusFieldError status_filed.status_code
        status_filed.status_code_type status_filed)
    else
      .ok status_filed

/-- C1: parse_status_filed decodes the first two bytes of the status blob
as an NVMeCQEStatusField and fails with a statusFieldError carrying the
status code, the status code type and the full field exactly when
status_code or status_code_type is nonzero; otherwise it returns the
parsed field.  Bytes 00 00 succeed with every field zero, and bytes
encoding status_code 2 with status_code_type 1 fail carrying (2, 1). -/
theorem parse_status_filed_error_iff :
    (∀ b0 b1 rest,
      ((NVMeCQEStatusField.fromBytes b0 b1).status_code ≠ 0 ∨
          (NVMeCQEStatusField.fromBytes b0 b1).status_code_type ≠ 0 →
        parse_status_filed (b0 :: b1 :: rest) =
          .error (.statusFieldError
            (NVMeCQEStatusField.fromBytes b0 b1).status_code
            (NVMeCQEStatusField.fromBytes b0 b1).status_code_type
            (NVMeCQEStatusField.fromBytes b0 b1))) ∧
      ((NVMeCQEStatusField.fromBytes b0 b1).status_code = 0 ∧
          (NVMeCQEStatusField.fromBytes b0 b1).status_code_type = 0 →
        parse_status_filed (b0 :: b1 :: rest) =
          .ok (NVMeCQEStatusField.fromBytes b0 b1))) ∧
    parse_status_filed [0, 0] = .ok ⟨0, 0, 0, 0, 0⟩ ∧
    parse_status_filed [2, 1] = .error (.statusFieldError 2 1 ⟨2, 1, 0, 0, 0⟩) := by
  refine ⟨fun b0 b1 rest => ⟨fun h => ?_, fun h => ?_⟩, rfl, rfl⟩
  · show (if _ then _ else _) = _
    rw [if_pos h]
  · show (if _ then _ else _) = _
    rw [if_neg]
    simp only [ne_eq, not_or, not_not]
    exact h

/-- Witness for C1: the theorem applied at the concrete blobs 03 05 and
00 40. -/
theorem parse_status_filed_error_iff_witness :
    parse_status_filed [3, 5] =
      .error (.statusFieldError 3 5 ⟨3, 5, 0, 0, 0⟩) ∧
    parse_status_filed [0, 64] = .ok ⟨0, 0, 0, 0, 1⟩ :=
  ⟨(parse_status_filed_error_iff.1 3 5 []).1 (by decide),
   (parse_status_filed_error_iff.1 0 64 []).2 (by decide)⟩

/-- C6: decoding a status blob shorter than the 2-byte fixed size of
NVMeCQEStatusField fails with the malformed-structure condition. -/
theorem parse_status_filed_short_input (status_blob : List Nat)
    (h : status_blob.length < 2) :
    parse_status_filed status_blob = .error .malformedStructure := by
  match status_blob with
  | [] => rfl
  | [b] => rfl
  | a :: b :: rest => simp only [List.length] at h; omega

/-- Witness for C6: the theorem applied to a 1-byte blob. -/
theorem parse_status_filed_short_input_witness :
    parse_status_filed [7] = .error .malformedStructure :=
  parse_status_filed_short_input [7] (by decide)

/-- NVMeAdminCommand from src/smartie/nvme/structures.py: the packed
(_pack_ = 1) 64-byte NVMe admin command.  Field order and byte widths
follow the ctypes _fields_ list; every field is an unsigned integer that
wraps to its width on assignment. -/
structure NVMeAdminCommand where
  opcode : Nat
  flags : Nat
  reserved_1 : Nat
  nsid : Nat
  cdw2 : Nat
  cdw3 : Nat
  metadata : Nat
  addr : Nat
  metadata_len : Nat
  data_len : Nat
  cdw10 : Nat
  cdw11 : Nat
  cdw12 : Nat
  cdw13 : Nat
  cdw14 : Nat
  cdw15 : Nat
  timeout_ms : Nat
  result : Nat
  deriving DecidableEq, Repr

/-- Little-endian encoding of the value v into the given number of bytes,
matching the ctypes wire representation of unsigned integer fields. -/
def encodeLE (width v : Nat) : List Nat :=
  (List.range width).map fun i => v / 256 ^ i % 256

/-- Wire encoding of NVMeAdminCommand: the concatenation of the
little-endian encodings of its fields in ctypes _fields_ order, with no
padding since the structure declares _pack_ = 1. -/
def NVMeAdminCommand.encode (c : NVMeAdminCommand) : List Nat :=
  encodeLE 1 c.opcode ++ encodeLE 1 c.flags ++ encodeLE 2 c.reserved_1 ++
    encodeLE 4 c.nsid ++ encodeLE 4 c.cdw2 ++ encodeLE 4 c.cdw3 ++
    encodeLE 8 c.metadata ++ encodeLE 8 c.addr ++ encodeLE 4 c.metadata_len ++
    encodeLE 4 c.data_len ++ encodeLE 4 c.cdw10 ++ encodeLE 4 c.cdw11 ++
    encodeLE 4 c.cdw12 ++ encodeLE 4 c.cdw13 ++ encodeLE 4 c.cdw14 ++
    encodeLE 4 c.cdw15 ++ encodeLE 4 c.timeout_ms ++ encodeLE 4 c.result

/-- NVMeAdminCommand with every field zero: the state ctypes gives a
freshly constructed structure before keyword arguments are applied. -/
def NVMeAdminCommand.zeroed : NVMeAdminCommand :=
  ⟨0, 0, 0, 0, 0, 0, 0, 0, 0, 0, 0, 0, 0, 0, 0, 0, 0, 0⟩

/-- Counterexample to C2 as stated: the packed admin command structure
occupies 72 bytes, not 64.  The byte widths of the declared fields sum to
1 + 1 + 2 + 4 + 4 + 4 + 8 + 8 + 4 + 4 + 24 + 4 + 4 = 72, matching the
size field 0x48 = 72 embedded in the Linux ioctl code 0xC0484E41
declared next to the structure. -/
theorem nvme_admin_command_not_64_bytes :
    NVMeAdminCommand.zeroed.encode.length = 72 ∧
    NVMeAdminCommand.zeroed.encode.length ≠ 64 := by
  constructor <;> decide

/-- C2 amended: the packed NVMe admin command, with opcode and flags of
one byte, the reserved field of two bytes, nsid, cdw2, cdw3, the metadata
and data lengths, cdw10 through cdw15, timeout_ms and result of four
bytes each and the metadata and data pointers of eight bytes, encodes to
exactly 72 bytes in total for every field assignment. -/
theorem nvme_admin_command_encodes_72_bytes (c : NVMeAdminCommand) :
    c.encode.length = 72 := by
  simp [NVMeAdminCommand.encode, encodeLE]

/-- Byte size of each field of SMARTPageResponse from
src/smartie/nvme/structures.py, in declaration order: the 1-byte
critical_warning bit-field structure, the 2-byte temperature, four single
bytes, 25 reserved bytes, ten 16-byte c_uint128 counters, two 4-byte
times, eight 2-byte temperature sensors, two pairs of 4-byte thermal
counters and 280 reserved bytes.  The structure declares _pack_ = 1. -/
def SMARTPageResponse.field_sizes : List Nat :=
  [1, 2, 1, 1, 1, 1, 25,
   16, 16, 16, 16, 16, 16, 16, 16, 16, 16,
   4, 4, 16, 8, 8, 280]

/-- Total byte size of SMARTPageResponse. -/
def SMARTPageResponse.byte_size : Nat := SMARTPageResponse.field_sizes.sum

/-- NVMEDevice.read_log_page from src/smartie/nvme/__init__.py: build the
admin command for GET_LOG_PAGE (opcode 0x02) with nsid 0xFFFFFFFF, the
data pointer and length set to the address and ctypes size of the
destination structure, and cdw10 combining the log page id with the dword
count minus one shifted left 16 bits.  ctypes wraps each field to its
declared width. -/
def read_log_page (log_page_id : Nat) (addr : Nat) (size : Nat) :
    NVMeAdminCommand :=
  { NVMeAdminCommand.zeroed with
    opcode := 0x02 % 2 ^ 8
    addr := addr % 2 ^ 64
    data_len := size % 2 ^ 32
    nsid := 0xFFFFFFFF % 2 ^ 32
    cdw10 := (log_page_id ||| ((size / 4 - 1) <<< 16)) % 2 ^ 32 }

/-- NVMEDevice.smart from src/smartie/nvme/__init__.py: read log page 0x02
into a freshly allocated SMARTPageResponse. -/
def smart (addr : Nat) : NVMeAdminCommand :=
  read_log_page 0x02 addr SMARTPageResponse.byte_size

/-- C3: for every log page id below 2 to the 16 and every destination
whose size is a positive multiple of 4 with at most 2 to the 16 dwords,
read_log_page issues opcode GET_LOG_PAGE (0x02) with nsid 0xFFFFFFFF, the
data pointer and length equal to the destination address and size, and
cdw10 equal to the log page id or-ed with the dword count minus one
shifted left 16 bits; smart is exactly read_log_page of 0x02 and a
SMARTPageResponse, whose size is 512 bytes, so its cdw10 is 0x007F0002. -/
theorem read_log_page_command_fields :
    (∀ log_page_id addr size, size % 4 = 0 → 0 < size →
      log_page_id < 2 ^ 16 → size / 4 ≤ 2 ^ 16 → addr < 2 ^ 64 →
      (read_log_page log_page_id addr size).opcode = 0x02 ∧
      (read_log_page log_page_id addr size).nsid = 0xFFFFFFFF ∧
      (read_log_page log_page_id addr size).addr = addr ∧
      (read_log_page log_page_id addr size).data_len = size ∧
      (read_log_page log_page_id addr size).cdw10 =
        (log_page_id ||| ((size / 4 - 1) <<< 16))) ∧
    (∀ addr, smart addr = read_log_page 0x02 addr SMARTPageResponse.byte_size) ∧
    SMARTPageResponse.byte_size = 512 ∧
    (∀ addr, (smart addr).cdw10 = 0x007F0002) := by
  refine ⟨fun log_page_id addr size h4 hpos hlid hdw haddr => ?_,
    fun addr => rfl, rfl, fun addr => ?_⟩
  · refine ⟨rfl, rfl, Nat.mod_eq_of_lt haddr, by
      show size % 2 ^ 32 = size
      omega, ?_⟩
    show (log_page_id ||| ((size / 4 - 1) <<< 16)) % 2 ^ 32 =
      log_page_id ||| ((size / 4 - 1) <<< 16)
    have hbound : (size / 4 - 1) <<< 16 ||| log_page_id < 2 ^ (16 + 16) :=
      @Nat.append_lt log_page_id (size / 4 - 1) 16 16 hlid (by omega)
    rw [Nat.lor_comm]
    exact Nat.mod_eq_of_lt (lt_of_lt_of_eq hbound (by norm_num))
  · show (0x02 ||| ((SMARTPageResponse.byte_size / 4 - 1) <<< 16)) % 2 ^ 32 =
      0x007F0002
    decide

/-- Witness for C3: the theorem applied at log page id 2, address 4096 and
the 512-byte SMART page size, giving cdw10 = 0x007F0002. -/
theorem read_log_page_command_fields_witness :
    (read_log_page 2 4096 512).cdw10 = 0x007F0002 :=
  ((read_log_page_command_fields.1 2 4096 512 (by decide) (by decide)
      (by decide) (by decide) (by decide)).2.2.2.2).trans (by decide)

/-- Bytes removed by the strip call in the serial and model accessors of
src/smartie/nvme/__init__.py: the space byte 0x20 and the null byte. -/
def is_strip_byte (b : Nat) : Bool := b = 0x20 || b = 0x00

/-- Removal of leading strip bytes, matching Python strip on the left
end of a bytearray. -/
def lstrip_space_null : List Nat → List Nat
  | [] => []
  | b :: rest =>
    if is_strip_byte b then lstrip_space_null rest else b :: rest

/-- Python bytearray.strip with the byte set space-and-null: it removes
the strip bytes from both ends, which the embedding realises as a left
strip followed by a reversed left strip. -/
def strip_space_null (bs : List Nat) : List Nat :=
  (lstrip_space_null (lstrip_space_null bs).reverse).reverse

/-- Decoding of a byte list as text, one character per byte, matching
bytes.decode on the ASCII content these fields carry. -/
def decode_text (bs : List Nat) : String :=
  String.mk (bs.map Char.ofNat)

/-- NVMEDevice.serial from src/smartie/nvme/__init__.py: the fixed 20-byte
serial_number field of the identify response, stripped of space and null
bytes and decoded as text. -/
def NVMEDevice.serial (serial_number : List Nat) : String :=
  decode_text (strip_space_null serial_number)

/-- NVMEDevice.model from src/smartie/nvme/__init__.py: the fixed 40-byte
model_number field of the identify response, stripped of space and null
bytes and decoded as text. -/
def NVMEDevice.model (model_number : List Nat) : String :=
  decode_text (strip_space_null model_number)

/-- Counterexample to C4 as stated: Python strip removes the strip bytes
from both ends, so a 20-byte serial field holding a leading space before
ABC123 loses that space: the accessor yields ABC123, not the claimed
text with the leading space preserved. -/
theorem serial_leading_space_not_preserved :
    NVMEDevice.serial
        ([0x20, 0x41, 0x42, 0x43, 0x31, 0x32, 0x33] ++ List.replicate 13 0) =
      "ABC123" ∧
    NVMEDevice.serial
        ([0x20, 0x41, 0x42, 0x43, 0x31, 0x32, 0x33] ++ List.replicate 13 0) ≠
      " ABC123" := by
  constructor
  · rfl
  · decide

/-- The left strip of the accessors is List.dropWhile on the strip-byte
test. -/
theorem lstrip_space_null_eq_dropWhile (bs : List Nat) :
    lstrip_space_null bs = bs.dropWhile is_strip_byte := by
  induction bs with
  | nil => rfl
  | cons b rest ih =>
    simp only [lstrip_space_null, List.dropWhile]
    by_cases h : is_strip_byte b
    · simp [h, ih]
    · simp [h]

/-- C4 amended: the serial and model accessors expose the fixed-width
serial and model byte fields trimmed of both leading and trailing space
and null bytes, decoded as text; interior bytes are preserved.  In
particular a 20-byte field containing ABC123 followed by space and null
padding yields exactly ABC123, and likewise for a padded 40-byte model
field. -/
theorem serial_model_strip_both_ends :
    (∀ bs : List Nat, strip_space_null bs =
      ((bs.dropWhile is_strip_byte).reverse.dropWhile is_strip_byte).reverse) ∧
    NVMEDevice.serial
        ([0x41, 0x42, 0x43, 0x31, 0x32, 0x33] ++
          List.replicate 7 0x20 ++ List.replicate 7 0) = "ABC123" ∧
    NVMEDevice.model
        ([0x41, 0x42, 0x43, 0x31, 0x32, 0x33] ++ List.replicate 34 0) =
      "ABC123" := by
  refine ⟨fun bs => ?_, rfl, rfl⟩
  rw [strip_space_null, lstrip_space_null_eq_dropWhile,
    lstrip_space_null_eq_dropWhile]

/-- Errors raised by the Windows SCSI layer of src/smartie/scsi/windows.py:
valueError models the ctypes ValueError raised by from_buffer_copy on a
too-small source, ioErrorAlreadyOpen the IOError raised on a second open,
winError the ctypes WinError carrying the last OS error code, and
senseError an error raised by the external parse_sense collaborator. -/
inductive SCSIError where
  | valueError
  | ioErrorAlreadyOpen
  | winError (code : Nat)
  | senseError
  deriving DecidableEq, Repr

/-- Python bytes.ljust: pad on the right with the fill byte up to the
requested width; a longer input is returned unchanged. -/
def ljust (bs : List Nat) (width : Nat) (fill : Nat) : List Nat :=
  bs ++ List.replicate (width - bs.length) fill

/-- ctypes from_buffer_copy into a 16-byte c_ubyte array: it raises
ValueError when the source holds fewer than 16 bytes and otherwise copies
exactly the first 16 bytes, silently ignoring any excess. -/
def ubyte16_from_buffer_copy (src : List Nat) :
    Except SCSIError (List Nat) :=
  if src.length < 16 then .error .valueError else .ok (src.take 16)

/-- The CDB construction of WindowsSCSIDevice.issue_command from
src/smartie/scsi/windows.py: the command block is right-padded with zero
bytes to 16 via ljust and copied into the fixed 16-byte cdb array that
the passthrough header transmits. -/
def WindowsSCSIDevice.cdb_of_command (command : List Nat) :
    Except SCSIError (List Nat) :=
  ubyte16_from_buffer_copy (ljust command 16 0)

/-- Counterexample to C5 as stated: a 17-byte command block is not
rejected; the CDB construction succeeds and transmits the first 16 bytes
of the block. -/
theorem cdb_seventeen_bytes_transmitted :
    WindowsSCSIDevice.cdb_of_command (List.replicate 17 0xAB) =
      .ok (List.replicate 16 0xAB) := rfl

/-- C5 amended: a command block shorter than 16 bytes is padded on the
right with zero bytes so that exactly a 16-byte CDB is transmitted (a
6-byte command yields bytes 6 through 15 equal to zero), and a block of
16 bytes or more is transmitted truncated to its first 16 bytes rather
than rejected. -/
theorem cdb_pad_and_truncate :
    (∀ command : List Nat, command.length ≤ 16 →
      WindowsSCSIDevice.cdb_of_command command =
        .ok (command ++ List.replicate (16 - command.length) 0)) ∧
    (∀ command : List Nat, 16 ≤ command.length →
      WindowsSCSIDevice.cdb_of_command command = .ok (command.take 16)) ∧
    WindowsSCSIDevice.cdb_of_command [0x12, 0, 0, 0, 0xFE, 0] =
      .ok ([0x12, 0, 0, 0, 0xFE, 0] ++ List.replicate 10 0) ∧
    ([0x12, 0, 0, 0, 0xFE, 0] ++ List.replicate 10 0).drop 6 =
      List.replicate 10 0 ∧
    ([0x12, 0, 0, 0, 0xFE, 0] ++ List.replicate 10 0).length = 16 := by
  refine ⟨fun command hle => ?_, fun command hge => ?_, rfl, rfl, rfl⟩
  · have hlen : (ljust command 16 0).length = 16 := by
      simp only [ljust, List.length_append, List.length_replicate]
      omega
    rw [WindowsSCSIDevice.cdb_of_command, ubyte16_from_buffer_copy,
      if_neg (by omega), List.take_of_length_le (le_of_eq hlen)]
    rfl
  · rw [WindowsSCSIDevice.cdb_of_command]
    have hj : ljust command 16 0 = command := by
      simp only [ljust, Nat.sub_eq_zero_of_le hge, List.replicate_zero,
        List.append_nil]
    rw [hj, ubyte16_from_buffer_copy, if_neg (by omega)]

/-- Witness for C5 amended: the theorem applied to a 6-byte and a 20-byte
command block. -/
theorem cdb_pad_and_truncate_witness :
    WindowsSCSIDevice.cdb_of_command [1, 2, 3, 4, 5, 6] =
      .ok ([1, 2, 3, 4, 5, 6] ++ List.replicate 10 0) ∧
    WindowsSCSIDevice.cdb_of_command (List.replicate 20 9) =
      .ok ((List.replicate 20 9).take 16) :=
  ⟨cdb_pad_and_truncate.1 [1, 2, 3, 4, 5, 6] (by decide),
   cdb_pad_and_truncate.2.1 (List.replicate 20 9) (by decide)⟩

/-- Outcome of WindowsSCSIDevice entry: the handle slot after the call
and the error raised, if any.  The source stores the CreateFileW result
into self.fd before checking it, which the fd component reflects. -/
structure EnterOutcome where
  fd : Option Int
  err : Option SCSIError
  deriving DecidableEq, Repr

/-- The open path of WindowsSCSIDevice from src/smartie/scsi/windows.py:
raise IOError when self.fd is already set, otherwise store the CreateFileW
result and raise WinError with the last OS error code when that result is
the invalid handle -1.  The CreateFileW result and the last error code are
inputs of the model since they come from the operating system. -/
def WindowsSCSIDevice.enter (fd : Option Int) (createFileResult : Int)
    (lastError : Nat) : EnterOutcome :=
  match fd with
  | some h => { fd := some h, err := some .ioErrorAlreadyOpen }
  | none =>
    if createFileResult = -1 then
      { fd := some createFileResult, err := some (.winError lastError) }
    else
      { fd := some createFileResult, err := none }

/-- Outcome of WindowsSCSIDevice exit: the cleared handle slot and whether
CloseHandle was invoked. -/
structure ExitOutcome where
  fd : Option Int
  closeHandleCalled : Bool
  deriving DecidableEq, Repr

/-- The close path of WindowsSCSIDevice from src/smartie/scsi/windows.py:
call CloseHandle only when self.fd is set, then clear self.fd. -/
def WindowsSCSIDevice.exit (fd : Option Int) : ExitOutcome :=
  match fd with
  | some _ => { fd := none, closeHandleCalled := true }
  | none => { fd := none, closeHandleCalled := false }

/-- C8: opening an already-open device fails with the state error; a
failing OS open call (CreateFileW returning -1) raises the platform error
carrying the last OS error code; close clears the handle slot, and a
second close is a no-op that does not touch the OS handle; opening again
after a close succeeds whenever the OS open call succeeds. -/
theorem device_open_close_lifecycle :
    (∀ h createFileResult lastError,
      (WindowsSCSIDevice.enter (some h) createFileResult lastError).err =
        some .ioErrorAlreadyOpen) ∧
    (∀ lastError,
      (WindowsSCSIDevice.enter none (-1) lastError).err =
        some (.winError lastError)) ∧
    (∀ fd, (WindowsSCSIDevice.exit fd).fd = none) ∧
    (∀ fd, WindowsSCSIDevice.exit (WindowsSCSIDevice.exit fd).fd =
      { fd := none, closeHandleCalled := false }) ∧
    (∀ fd createFileResult lastError, createFileResult ≠ -1 →
      (WindowsSCSIDevice.enter (WindowsSCSIDevice.exit fd).fd
        createFileResult lastError).err = none) := by
  refine ⟨fun h cr le => rfl, fun le => rfl, fun fd => ?_, fun fd => ?_,
    fun fd cr le hcr => ?_⟩
  · cases fd <;> rfl
  · cases fd <;> rfl
  · cases fd <;>
      simp [WindowsSCSIDevice.exit, WindowsSCSIDevice.enter, hcr]

/-- Witness for C8: the theorem applied to a device whose handle 7 was
closed and whose reopen returns handle 5. -/
theorem device_open_close_lifecycle_witness :
    (WindowsSCSIDevice.enter (WindowsSCSIDevice.exit (some 7)).fd 5 0).err =
      none :=
  device_open_close_lifecycle.2.2.2.2 (some 7) 5 0 (by decide)

/-- The completion path of WindowsSCSIDevice.issue_command from
src/smartie/scsi/windows.py: after DeviceIoControl returns, parse_sense is
applied to the sense bytes of the returned header unconditionally; a
parse_sense exception propagates, otherwise a zero DeviceIoControl result
raises WinError with the last OS error code, and a nonzero result returns
the raw sense bytes.  parse_sense lives outside this layer and is passed
in as a function, and the DeviceIoControl result, the returned sense
bytes and the last error code are operating-system inputs. -/
def WindowsSCSIDevice.issue_command_completion
    (parse_sense : List Nat → Except SCSIError Unit)
    (deviceIoControlResult : Nat) (sense : List Nat) (lastError : Nat) :
    Except SCSIError (List Nat) :=
  match parse_sense sense with
  | .error e => .error e
  | .ok _ =>
    if deviceIoControlResult = 0 then .error (.winError lastError)
    else .ok sense

/-- C9: the sense bytes of the returned header are parsed regardless of
the OS-level result, so a parse_sense failure surfaces even when
DeviceIoControl reported failure; when parse_sense passes and the OS-level
call failed, the operation fails with the platform error carrying the last
OS error code; when parse_sense passes and the OS-level call succeeded,
the raw sense bytes are returned unchanged. -/
theorem issue_command_sense_and_errors :
    (∀ parse_sense r sense lastError e, parse_sense sense = .error e →
      WindowsSCSIDevice.issue_command_completion parse_sense r sense
        lastError = .error e) ∧
    (∀ parse_sense sense lastError, parse_sense sense = .ok () →
      WindowsSCSIDevice.issue_command_completion parse_sense 0 sense
        lastError = .error (.winError lastError)) ∧
    (∀ parse_sense r sense lastError, parse_sense sense = .ok () → r ≠ 0 →
      WindowsSCSIDevice.issue_command_completion parse_sense r sense
        lastError = .ok sense) := by
  refine ⟨fun p r s le e hp => ?_, fun p s le hp => ?_,
    fun p r s le hp hr => ?_⟩
  · rw [WindowsSCSIDevice.issue_command_completion, hp]
  · rw [WindowsSCSIDevice.issue_command_completion, hp]
    rfl
  · rw [WindowsSCSIDevice.issue_command_completion, hp]
    exact if_neg hr

/-- Witness for C9: the theorem applied to a parse_sense that always
fails, then to one that always passes, at concrete OS results. -/
theorem issue_command_sense_and_errors_witness :
    WindowsSCSIDevice.issue_command_completion
      (fun _ => .error .senseError) 0 [1, 2] 5 = .error .senseError ∧
    WindowsSCSIDevice.issue_command_completion
      (fun _ => .ok ()) 0 [1, 2] 5 = .error (.winError 5) ∧
    WindowsSCSIDevice.issue_command_completion
      (fun _ => .ok ()) 1 [1, 2] 5 = .ok [1, 2] :=
  ⟨issue_command_sense_and_errors.1 (fun _ => .error .senseError) 0 [1, 2]
      5 .senseError rfl,
   issue_command_sense_and_errors.2.1 (fun _ => .ok ()) [1, 2] 5 rfl,
   issue_command_sense_and_errors.2.2 (fun _ => .ok ()) 1 [1, 2] 5 rfl
     (by decide)⟩

/-- NVMeResponse from src/smartie/nvme/__init__.py: the platform-agnostic
response dataclass.  succeeded is a tri-state optional boolean, and
platform_header holds an arbitrary platform-specific value, modelled by
the type parameter. -/
structure NVMeResponse (H : Type) where
  succeeded : Option Bool
  command_spec : Option Nat
  status_field : Option NVMeCQEStatusField
  command : NVMeAdminCommand
  bytes_transferred : Option Nat
  platform_header : H

/-- Failure of the Python truth-testing protocol: bool(x) raises TypeError
when a __bool__ method returns a value that is not an actual boolean. -/
inductive TruthTestError where
  | typeErr
  deriving DecidableEq, Repr

/-- Truth-testing an NVMeResponse: its __bool__ returns self.succeeded
directly, so the interpreter yields that boolean when succeeded is an
actual boolean and raises TypeError when succeeded is the unknown value
None. -/
def NVMeResponse.truth_value {H : Type} (r : NVMeResponse H) :
    Except TruthTestError Bool :=
  match r.succeeded with
  | some b => .ok b
  | none => .error .typeErr

/-- C10: truth-testing a response returns the succeeded field directly, so
it is well-defined exactly when succeeded is an actual boolean, and it
raises a type error when succeeded is the unknown value None. -/
theorem response_truth_test_requires_bool :
    (∀ (H : Type) (r : NVMeResponse H), r.succeeded = none →
      r.truth_value = .error .typeErr) ∧
    (∀ (H : Type) (r : NVMeResponse H) (b : Bool), r.succeeded = some b →
      r.truth_value = .ok b) := by
  refine ⟨fun H r h => ?_, fun H r b h => ?_⟩ <;>
    simp only [NVMeResponse.truth_value, h]

/-- Witness for C10: the theorem applied to concrete responses with the
unknown and the true succeeded values. -/
theorem response_truth_test_requires_bool_witness :
    (⟨none, none, none, NVMeAdminCommand.zeroed, none, ()⟩ :
        NVMeResponse Unit).truth_value = .error .typeErr ∧
    (⟨some true, none, none, NVMeAdminCommand.zeroed, none, ()⟩ :
        NVMeResponse Unit).truth_value = .ok true :=
  ⟨response_truth_test_requires_bool.1 Unit
      ⟨none, none, none, NVMeAdminCommand.zeroed, none, ()⟩ rfl,
   response_truth_test_requires_bool.2 Unit
      ⟨some true, none, none, NVMeAdminCommand.zeroed, none, ()⟩ true rfl⟩

/-- NVMEDevice.temperature from src/smartie/nvme/__init__.py: the Python
expression int(smart.temperature - 273.15).  The raw field holds an exact
16-bit integer k, k - 273.15 equals (100 k - 27315) / 100 exactly, and
Python int() truncates toward zero, which Int.tdiv performs; on the
16-bit field range the double-precision subtraction never lands close
enough to an integer to change the truncated result, so the embedding
uses exact arithmetic. -/
def NVMEDevice.temperature (temperature_kelvin : Nat) : Int :=
  Int.tdiv (100 * (temperature_kelvin : Int) - 27315) 100

/-- C7: for every raw Kelvin value k the temperature accessor returns
k - 273.15 truncated toward zero (the floor for nonnegative values, the
ceiling for negative ones); in particular k = 300 yields 26. -/
theorem temperature_truncates_toward_zero :
    (∀ k : Nat, NVMEDevice.temperature k =
      if 0 ≤ ((k : ℚ) - 273.15) then ⌊((k : ℚ) - 273.15)⌋
      else ⌈((k : ℚ) - 273.15)⌉) ∧
    NVMEDevice.temperature 300 = 26 := by
  constructor
  · intro k
    have hq : ((k : ℚ) - 273.15) =
        (((100 * (k : Int) - 27315 : Int) : ℚ)) / (((100 : Nat) : ℚ)) := by
      push_cast
      rw [eq_div_iff (by norm_num : (100 : ℚ) ≠ 0)]
      ring_nf
    rcases le_or_lt 274 k with hk | hk
    · have hnonneg : (0 : Int) ≤ 100 * (k : Int) - 27315 := by omega
      have hq0 : (0 : ℚ) ≤ (k : ℚ) - 273.15 := by
        rw [hq]
        positivity
      rw [if_pos hq0, hq, Rat.floor_intCast_div_natCast,
        NVMEDevice.temperature, Int.tdiv_eq_ediv hnonneg (by norm_num)]
      norm_num
    · have hneg : 100 * (k : Int) - 27315 < 0 := by omega
      have hq0 : ¬ (0 : ℚ) ≤ (k : ℚ) - 273.15 := by
        rw [hq, not_le]
        apply div_neg_of_neg_of_pos
        · exact_mod_cast hneg
        · norm_num
      rw [if_neg hq0, hq]
      have hrw : (((100 * (k : Int) - 27315 : Int) : ℚ)) /
            (((100 : Nat) : ℚ)) =
          -((((27315 - 100 * (k : Int) : Int) : ℚ)) / (((100 : Nat) : ℚ))) := by
        push_cast
        ring
      rw [hrw, Int.ceil_neg, Rat.floor_intCast_div_natCast,
        NVMEDevice.temperature]
      have hneg2 : (100 * (k : Int) - 27315) = -(27315 - 100 * (k : Int)) := by
        ring
      rw [hneg2, Int.neg_tdiv, Int.tdiv_eq_ediv (by omega) (by norm_num)]
      norm_num
  · decide

end Smartie
